import Mathlib

/-!
Shallow embedding of the SatTrack repository (src/script/map.js).

The source is a browser script with two classes:
  * class Leaflet  — wraps a map widget; owns a registry `markers` of
    (satellite id, marker handle) records and the widget's layers.
  * class Satellite — a flat record of the remote JSON payload plus error
    fields, with a fetch routine and a setInterval-based auto-update loop.

Modelling conventions:
  * JS marker objects are aliased between the registry and the widget's
    layers (setIcon through the registry changes what the widget shows), so
    markers live in a heap `List (Nat × MarkerData)` addressed by fresh
    Nat handles; the registry and the layer list store handles.
  * JS numbers are modelled as Int (no claim does float arithmetic), JS
    strings as String.  Fields left undefined by the JS constructor are
    given inert defaults; no claim depends on those initial values.
  * A method that can throw returns `state × Option JsError`, where the
    returned state is the object state at the moment of the throw — the
    source throws before or after mutations, and the claims speak about
    which.  The TypeError the source raises when `Array.find` returns
    undefined and `.marker` is read is the spec taxonomy's NotFound
    (an identifier absent from the registry).
  * The marker popup/tooltip text, icon pixel options and the tile layer
    are presentational and referenced by no claim; the icon identity (dot
    versus numbered satellite image) is kept, the strings are elided.
  * setInterval/clearInterval are modelled by a TimerWorld: a list of
    active interval ids and a fresh-id counter.  The scheduled callback
    (fetch then addSatellite) is represented by the registration itself;
    the claims are about scheduling, not about firing ticks.
-/

namespace SatTrack

/-- Marker icon identity: the minimal dot versus the numbered satellite
image (`satellite${idx}.png`). -/
inductive Icon where
  | dot : Icon
  | satellite : Nat → Icon
  deriving DecidableEq, Repr

/-- The state of one `L.marker` object: its latlng and current icon. -/
structure MarkerData where
  lat : Int
  lng : Int
  icon : Icon
  deriving DecidableEq, Repr

/-- One entry of `Leaflet.markers`: `{ id: satellite.id, marker: mapMarker }`,
with the marker object referred to by its heap handle. -/
structure MarkerRecord where
  id : Int
  marker : Nat
  deriving DecidableEq, Repr

/-- Failures surfaced by the script, using the spec's error taxonomy:
`notFound` is the failure raised when an identifier is absent from the
registry (in the source it surfaces as a TypeError on reading `.marker`
of `undefined`, or as the explicit throw in zoomToSatellite);
`invalidArgument` carries the message of an explicit guard-clause throw. -/
inductive JsError where
  | notFound : JsError
  | invalidArgument : String → JsError
  deriving DecidableEq, Repr

/-- First marker object stored under handle `h`. -/
def heapFind (heap : List (Nat × MarkerData)) (h : Nat) : Option MarkerData :=
  (heap.find? (fun e => e.1 == h)).map (·.2)

/-- State of a `Leaflet` instance: widget view state (center, zoom and the
zoom bounds set at construction), the widget's layers (marker handles added
to the map), the marker heap with its fresh-handle counter, the `markers`
registry, and `satelliteIndex` (the icon index used for new markers). -/
structure Leaflet where
  center : Int × Int
  zoom : Int
  minZoom : Int
  maxZoom : Int
  layers : List Nat
  heap : List (Nat × MarkerData)
  nextHandle : Nat
  markers : List MarkerRecord
  satelliteIndex : Nat
  deriving DecidableEq, Repr

/-- The predicate `marker => marker.id === satellite.id` used by every
registry lookup in the source. -/
def matchesId (id : Int) (m : MarkerRecord) : Bool :=
  m.id == id

/-- Remote JSON payload: `id, name, altitude, daynum, footprint, latitude,
longitude, solar_lat, solar_lon, timestamp, units, velocity, visibility`. -/
structure SatJson where
  id : Int
  name : String
  altitude : Int
  daynum : Int
  footprint : Int
  latitude : Int
  longitude : Int
  solar_lat : Int
  solar_lon : Int
  timestamp : Int
  units : List String
  velocity : Int
  visibility : String
  deriving DecidableEq, Repr

/-- What `fetch` hands back: the `ok` flag, status code, status text, and
the parsed JSON body (only read when `ok` is true). -/
structure HttpResponse where
  ok : Bool
  status : Int
  statusText : String
  json : SatJson
  deriving DecidableEq, Repr

/-- State of a `Satellite` instance.  The JS constructor sets only `id` and
`url`; the remaining fields are undefined until a fetch, modelled by inert
defaults in `Satellite.new` (no claim depends on them).  `autoUpdater` holds
the interval handle of the auto-update timer, if one was ever scheduled. -/
structure Satellite where
  id : Int
  url : String
  name : String
  altitude : Int
  daynum : Int
  footprint : Int
  latitude : Int
  longitude : Int
  solar_lat : Int
  solar_lon : Int
  timestamp : Int
  units : List String
  velocity : Int
  visibility : String
  fetchResponse : Option SatJson
  errorBool : Bool
  errorCode : Int
  errorText : String
  autoUpdater : Option Nat
  deriving DecidableEq, Repr

/-- `new Satellite(id)`: sets `id` and the per-entity URL. -/
def Satellite.new (id : Int) : Satellite where
  id := id
  url := "https://api.wheretheiss.at/v1/satellites/" ++ toString id
  name := ""
  altitude := 0
  daynum := 0
  footprint := 0
  latitude := 0
  longitude := 0
  solar_lat := 0
  solar_lon := 0
  timestamp := 0
  units := []
  velocity := 0
  visibility := ""
  fetchResponse := none
  errorBool := false
  errorCode := 0
  errorText := ""
  autoUpdater := none

/-- `new Leaflet(lat, lon, zoom)`: sets the view to the given center and
zoom, then `setMinZoom(2).setMaxZoom(18)` clamps the zoom into [2, 18].
The tile layer and its attribution string are presentational and elided. -/
def Leaflet.new (lat lon zoom : Int) : Leaflet where
  center := (lat, lon)
  zoom := min (max zoom 2) 18
  minZoom := 2
  maxZoom := 18
  layers := []
  heap := []
  nextHandle := 0
  markers := []
  satelliteIndex := 0

/-- `Leaflet.replaceSatelliteWithDot(satellite)`: filter the registry for
records with the satellite's id and `setIcon(this.icons.dot)` on each of
their markers.  (The source's `if (markers)` guard is always true — a JS
array is truthy — so the loop simply runs over the filtered list.)  The
registry itself is not changed, only the marker objects' icons. -/
def Leaflet.replaceSatelliteWithDot (st : Leaflet) (satellite : Satellite) : Leaflet :=
  let hs := (st.markers.filter (matchesId satellite.id)).map MarkerRecord.marker
  { st with
    heap := st.heap.map (fun e =>
      if hs.contains e.1 then (e.1, { e.2 with icon := Icon.dot }) else e) }

/-- `Leaflet.addSatellite(satellite)`: if some registry record already has
the satellite's id, first `replaceSatelliteWithDot`; then create a fresh
marker at (latitude, longitude) with the numbered satellite icon
(`satellite${this.satelliteIndex}.png`), add it to the map, and push a new
`{id, marker}` record onto the registry.  (The popup text bound to the
marker is elided; `return this` is method chaining.) -/
def Leaflet.addSatellite (st : Leaflet) (satellite : Satellite) : Leaflet :=
  let st1 :=
    if st.markers.any (matchesId satellite.id) then
      st.replaceSatelliteWithDot satellite
    else st
  let mapMarker : MarkerData :=
    { lat := satellite.latitude, lng := satellite.longitude,
      icon := Icon.satellite st1.satelliteIndex }
  { st1 with
    heap := (st1.nextHandle, mapMarker) :: st1.heap,
    layers := st1.layers ++ [st1.nextHandle],
    markers := st1.markers ++ [{ id := satellite.id, marker := st1.nextHandle }],
    nextHandle := st1.nextHandle + 1 }

/-- `Leaflet.removeSatellite(satellite)`: `find` the record with the
satellite's id — when there is none, reading `.marker` of `undefined`
throws before anything is mutated (NotFound).  Otherwise
`map.removeLayer(record.marker)` detaches that marker from the widget and
`splice(findIndex(...), 1)` deletes the first matching registry record. -/
def Leaflet.removeSatellite (st : Leaflet) (satellite : Satellite) :
    Leaflet × Option JsError :=
  match st.markers.find? (matchesId satellite.id) with
  | none => (st, some JsError.notFound)
  | some r =>
    ({ st with
        layers := st.layers.erase r.marker,
        markers := st.markers.eraseP (matchesId satellite.id) }, none)

/-- `Leaflet.zoomToSatellite(satellite)`: `find` the record with the
satellite's id — when there is none, reading `.marker` of `undefined`
throws (NotFound; the source's explicit `!record.marker` throw cannot fire
on a found record, since a marker object is truthy).  Otherwise
`setView(record.marker.getLatLng(), this.map.getZoom())` re-centers the
widget on the marker's coordinates at the current zoom.  (A registry handle
is never dangling in states built by this API; the dangling branch is
unreachable junk mapped to the same NotFound failure.) -/
def Leaflet.zoomToSatellite (st : Leaflet) (satellite : Satellite) :
    Leaflet × Option JsError :=
  match st.markers.find? (matchesId satellite.id) with
  | none => (st, some JsError.notFound)
  | some r =>
    match heapFind st.heap r.marker with
    | some md => ({ st with center := (md.lat, md.lng) }, none)
    | none => (st, some JsError.notFound)

/-- Well-formedness of a Leaflet state: every registry handle points at a
marker object in the heap and is below the fresh-handle counter.  This
holds for every state built through the API and is checked concretely
(by `decide`) at each witness. -/
def Leaflet.wf (st : Leaflet) : Bool :=
  st.markers.all fun r =>
    (heapFind st.heap r.marker).isSome && decide (r.marker < st.nextHandle)

/-- `Satellite.fetchSatellite()` applied to the response of `fetch(this.url)`.
On `!result.ok`: set `errorBool/errorCode/errorText` from the response and
`return;` — the call produces no value (undefined), modelled as `none`.
On success: overwrite every payload field from the parsed JSON, remember the
raw payload in `fetchResponse`, and return `this`.  The result is the pair
(new satellite state, returned value). -/
def Satellite.fetchSatellite (s : Satellite) (result : HttpResponse) :
    Satellite × Option Satellite :=
  if !result.ok then
    ({ s with
        errorBool := true,
        errorCode := result.status,
        errorText := result.statusText }, none)
  else
    let json := result.json
    let s' : Satellite :=
      { s with
        id := json.id, name := json.name, altitude := json.altitude,
        daynum := json.daynum, footprint := json.footprint,
        latitude := json.latitude, longitude := json.longitude,
        solar_lat := json.solar_lat, solar_lon := json.solar_lon,
        timestamp := json.timestamp, units := json.units,
        velocity := json.velocity, visibility := json.visibility,
        fetchResponse := some json }
    (s', some s')

/-- The browser's interval table: the ids of the currently active repeating
timers and the next fresh id. -/
structure TimerWorld where
  active : List Nat
  next : Nat
  deriving DecidableEq, Repr

/-- No timers scheduled yet. -/
def TimerWorld.init : TimerWorld where
  active := []
  next := 0

/-- `setInterval(callback, ms)`: registers a fresh repeating timer and
returns its id. -/
def setInterval (w : TimerWorld) : Nat × TimerWorld :=
  (w.next, { active := w.active ++ [w.next], next := w.next + 1 })

/-- `clearInterval(handle)`: cancels the timer with that id; passing
`undefined` (no handle yet) is a no-op, as is an id that is not active. -/
def clearInterval (handle : Option Nat) (w : TimerWorld) : TimerWorld :=
  match handle with
  | none => w
  | some h => { w with active := w.active.erase h }

/-- `Satellite.autoUpdate(trueOrFalse, interval, map)`.  Guard clauses
throw for `interval < 1000` and for a missing map handle; the source's
third guard `!typeof trueOrFalse === 'boolean'` compares the boolean
`false` with the string `'boolean'` and can never throw.  On `false`:
`clearInterval(this.autoUpdater)` and return.  On `true`: clear any
existing timer (restart), then schedule a fresh repeating timer whose
callback fetches and re-adds the satellite, storing its id in
`this.autoUpdater`.  The result is ((satellite, timer world), error). -/
def Satellite.autoUpdate (s : Satellite) (trueOrFalse : Bool) (interval : Int)
    (map : Option Leaflet) (w : TimerWorld) :
    (Satellite × TimerWorld) × Option JsError :=
  if interval < 1000 then
    ((s, w), some (JsError.invalidArgument "Interval must be at least 1000 milliseconds."))
  else if map.isNone then
    ((s, w), some (JsError.invalidArgument "Map is not given."))
  else if !trueOrFalse then
    ((s, clearInterval s.autoUpdater w), none)
  else
    let w1 := clearInterval s.autoUpdater w
    let hw := setInterval w1
    (({ s with autoUpdater := some hw.1 }, hw.2), none)

/-- One call of the auto-update loop: apply `autoUpdate` with the given
arguments and keep the resulting state (on a throw the state is unchanged). -/
def loopStep (p : Satellite × TimerWorld) (inp : Bool × Int × Option Leaflet) :
    Satellite × TimerWorld :=
  (p.1.autoUpdate inp.1 inp.2.1 inp.2.2 p.2).1

/-- The satellite and timer world reached from `new Satellite(id)` and an
empty interval table by a sequence of `autoUpdate` calls. -/
def runLoop (id : Int) (inputs : List (Bool × Int × Option Leaflet)) :
    Satellite × TimerWorld :=
  inputs.foldl loopStep (Satellite.new id, TimerWorld.init)

/-- The loop is Stopped: its recorded timer handle (if any) is not active. -/
def loopStopped (s : Satellite) (w : TimerWorld) : Bool :=
  match s.autoUpdater with
  | none => true
  | some h => !(w.active.contains h)

/-- Invariant of the auto-update loop: at most one interval is active, and
any active interval is the one recorded in `autoUpdater`. -/
def LoopInv (p : Satellite × TimerWorld) : Prop :=
  p.2.active.length ≤ 1 ∧ ∀ h ∈ p.2.active, p.1.autoUpdater = some h

/-! Concrete fixtures used by counterexamples and witnesses (the entity of
the spec's end-to-end example, a fresh view, and states reached from them
through the API). -/

/-- The payload of the spec's end-to-end example entity. -/
def jsonISS : SatJson where
  id := 25544
  name := "ISS"
  altitude := 420
  daynum := 60000
  footprint := 4500
  latitude := 51
  longitude := 0
  solar_lat := 20
  solar_lon := 300
  timestamp := 1700000000
  units := ["km", "mi"]
  velocity := 27000
  visibility := "daylight"

/-- A 404 response (non-success status; the body is never read). -/
def resp404 : HttpResponse where
  ok := false
  status := 404
  statusText := "Not Found"
  json := jsonISS

/-- The spec's example entity, as a populated Satellite state. -/
def iss : Satellite :=
  { Satellite.new 25544 with
      name := "ISS", altitude := 420, latitude := 51, longitude := 0,
      timestamp := 1700000000, units := ["km", "mi"], velocity := 27000,
      visibility := "daylight" }

/-- A fresh view, centered like the spec's end-to-end example. -/
def demoMap : Leaflet := Leaflet.new 20 114 3

/-- The view after one addSatellite call for the example entity. -/
def oneMarkerMap : Leaflet := demoMap.addSatellite iss

/-- The view after two addSatellite calls with the same identifier. -/
def twoMarkerMap : Leaflet := oneMarkerMap.addSatellite iss

/-- A satellite whose auto-update timer 0 is active in `worldRunning`. -/
def satRunning : Satellite := { Satellite.new 25544 with autoUpdater := some 0 }

/-- A timer world with the single active interval 0. -/
def worldRunning : TimerWorld where
  active := [0]
  next := 1

/-- One successful start call, used to reach a Running loop state. -/
def loopInputs1 : List (Bool × Int × Option Leaflet) := [(true, 1500, some demoMap)]

/-! Claims C3 and C4: the fetch routine. -/

/-- C3 counterexample: on a non-success HTTP status (404) the value
returned by fetchSatellite is undefined (none), not the entity — refuting
the claim that the entity itself is returned whether or not the status is
a success. -/
theorem fetchSatellite_nonsuccess_return_cex :
    (iss.fetchSatellite resp404).2 = none ∧
    (iss.fetchSatellite resp404).2 ≠ some (iss.fetchSatellite resp404).1 := by
  constructor
  · rfl
  · decide

/-- C3 (amended): fetchSatellite returns the updated entity exactly when
the HTTP status is a success; on a non-success status it records the error
on the entity and returns no value (undefined). -/
theorem fetchSatellite_return_spec (s : Satellite) (result : HttpResponse) :
    (s.fetchSatellite result).2 =
      if result.ok then some (s.fetchSatellite result).1 else none := by
  by_cases h : result.ok <;> simp [Satellite.fetchSatellite, h]

/-- C4: on a non-success HTTP status, every positional field of the entity
(latitude, longitude, altitude, velocity, timestamp, name, daynum,
footprint, solar_lat, solar_lon, units, visibility) is unchanged from
before the call, while errorBool is set and errorCode/errorText are set to
the response's status code and status text. -/
theorem fetchSatellite_error_frame (s : Satellite) (result : HttpResponse)
    (h : result.ok = false) :
    ((s.fetchSatellite result).1.latitude = s.latitude ∧
     (s.fetchSatellite result).1.longitude = s.longitude ∧
     (s.fetchSatellite result).1.altitude = s.altitude ∧
     (s.fetchSatellite result).1.velocity = s.velocity ∧
     (s.fetchSatellite result).1.timestamp = s.timestamp ∧
     (s.fetchSatellite result).1.name = s.name ∧
     (s.fetchSatellite result).1.daynum = s.daynum ∧
     (s.fetchSatellite result).1.footprint = s.footprint ∧
     (s.fetchSatellite result).1.solar_lat = s.solar_lat ∧
     (s.fetchSatellite result).1.solar_lon = s.solar_lon ∧
     (s.fetchSatellite result).1.units = s.units ∧
     (s.fetchSatellite result).1.visibility = s.visibility) ∧
    ((s.fetchSatellite result).1.errorBool = true ∧
     (s.fetchSatellite result).1.errorCode = result.status ∧
     (s.fetchSatellite result).1.errorText = result.statusText) := by
  simp [Satellite.fetchSatellite, h]

/-- Witness for C4 at the example entity and the 404 response. -/
theorem fetchSatellite_error_frame_witness :
    ((iss.fetchSatellite resp404).1.latitude = iss.latitude ∧
     (iss.fetchSatellite resp404).1.longitude = iss.longitude ∧
     (iss.fetchSatellite resp404).1.altitude = iss.altitude ∧
     (iss.fetchSatellite resp404).1.velocity = iss.velocity ∧
     (iss.fetchSatellite resp404).1.timestamp = iss.timestamp ∧
     (iss.fetchSatellite resp404).1.name = iss.name ∧
     (iss.fetchSatellite resp404).1.daynum = iss.daynum ∧
     (iss.fetchSatellite resp404).1.footprint = iss.footprint ∧
     (iss.fetchSatellite resp404).1.solar_lat = iss.solar_lat ∧
     (iss.fetchSatellite resp404).1.solar_lon = iss.solar_lon ∧
     (iss.fetchSatellite resp404).1.units = iss.units ∧
     (iss.fetchSatellite resp404).1.visibility = iss.visibility) ∧
    ((iss.fetchSatellite resp404).1.errorBool = true ∧
     (iss.fetchSatellite resp404).1.errorCode = resp404.status ∧
     (iss.fetchSatellite resp404).1.errorText = resp404.statusText) :=
  fetchSatellite_error_frame iss resp404 (by decide)

/-! Claims C6 and C9: the autoUpdate guard clauses. -/

/-- C6: with a map handle given, start (autoUpdate true) fails with
InvalidArgument exactly when the interval is below 1000 ms: below the
floor the call throws the interval guard without touching any state,
and at or above the floor it succeeds. -/
theorem autoUpdate_start_interval_guard (s : Satellite) (i : Int)
    (mp : Leaflet) (w : TimerWorld) :
    (i < 1000 →
      s.autoUpdate true i (some mp) w =
        ((s, w), some (JsError.invalidArgument
          "Interval must be at least 1000 milliseconds."))) ∧
    (1000 ≤ i → (s.autoUpdate true i (some mp) w).2 = none) := by
  constructor
  · intro h
    simp [Satellite.autoUpdate, h]
  · intro h
    have h' : ¬ i < 1000 := not_lt.mpr h
    simp [Satellite.autoUpdate, h']

/-- Witness for C6: start(500) fails with the interval guard and
start(1000) succeeds. -/
theorem autoUpdate_start_interval_guard_witness :
    ((500 : Int) < 1000 ∧
      (Satellite.new 25544).autoUpdate true 500 (some demoMap) TimerWorld.init =
        ((Satellite.new 25544, TimerWorld.init),
          some (JsError.invalidArgument
            "Interval must be at least 1000 milliseconds."))) ∧
    ((1000 : Int) ≤ 1000 ∧
      ((Satellite.new 25544).autoUpdate true 1000 (some demoMap)
        TimerWorld.init).2 = none) :=
  ⟨⟨by decide,
    (autoUpdate_start_interval_guard (Satellite.new 25544) 500 demoMap
      TimerWorld.init).1 (by decide)⟩,
   ⟨by decide,
    (autoUpdate_start_interval_guard (Satellite.new 25544) 1000 demoMap
      TimerWorld.init).2 (by decide)⟩⟩

/-- C9: a stop request (autoUpdate false) still runs the start guards
first: with interval below 1000 ms, or with the interval in range but no
map handle, the call throws InvalidArgument before reaching the stop
branch, and the timer world is returned unchanged — the timer is not
cleared. -/
theorem autoUpdate_stop_guard_precedence (s : Satellite) (i : Int)
    (map : Option Leaflet) (w : TimerWorld) :
    (i < 1000 →
      s.autoUpdate false i map w =
        ((s, w), some (JsError.invalidArgument
          "Interval must be at least 1000 milliseconds."))) ∧
    (1000 ≤ i → map = none →
      s.autoUpdate false i map w =
        ((s, w), some (JsError.invalidArgument "Map is not given."))) := by
  constructor
  · intro h
    simp [Satellite.autoUpdate, h]
  · intro h hm
    have h' : ¬ i < 1000 := not_lt.mpr h
    simp [Satellite.autoUpdate, h', hm]

/-- Witness for C9 at a Running loop: neither the 500 ms stop request nor
the map-less stop request clears the active timer. -/
theorem autoUpdate_stop_guard_precedence_witness :
    ((500 : Int) < 1000 ∧
      satRunning.autoUpdate false 500 (some demoMap) worldRunning =
        ((satRunning, worldRunning),
          some (JsError.invalidArgument
            "Interval must be at least 1000 milliseconds."))) ∧
    ((1000 : Int) ≤ 1000 ∧
      satRunning.autoUpdate false 1000 none worldRunning =
        ((satRunning, worldRunning),
          some (JsError.invalidArgument "Map is not given."))) :=
  ⟨⟨by decide,
    (autoUpdate_stop_guard_precedence satRunning 500 (some demoMap)
      worldRunning).1 (by decide)⟩,
   ⟨by decide,
    (autoUpdate_stop_guard_precedence satRunning 1000 none
      worldRunning).2 (by decide) rfl⟩⟩

/-! Claim C10: removeSatellite on an absent identifier is atomic. -/

/-- C10: removeSatellite with an identifier that has no matching registry
record throws before performing any mutation: the returned state is
exactly the input state (registry and widget layers untouched), with the
NotFound failure. -/
theorem removeSatellite_error_atomic (satellite : Satellite) (st : Leaflet)
    (h : st.markers.find? (matchesId satellite.id) = none) :
    st.removeSatellite satellite = (st, some JsError.notFound) := by
  simp [Leaflet.removeSatellite, h]

/-- Witness for C10: removing the example entity from a fresh view fails
with NotFound and leaves the view untouched. -/
theorem removeSatellite_error_atomic_witness :
    demoMap.markers.find? (matchesId iss.id) = none ∧
    demoMap.removeSatellite iss = (demoMap, some JsError.notFound) :=
  ⟨by decide, removeSatellite_error_atomic iss demoMap (by decide)⟩

/-! Claim C2: removeSatellite. -/

/-- A list with at most one element satisfying p has none left after
erasing the first one that does. -/
theorem countP_eraseP_of_le_one (p : α → Bool) (l : List α)
    (h : l.countP p ≤ 1) : (l.eraseP p).countP p = 0 := by
  induction l with
  | nil => rfl
  | cons a t ih =>
    by_cases ha : p a
    · have ht : t.countP p = 0 := by
        simpa [List.countP_cons, ha] using h
      simpa [List.eraseP_cons, ha] using ht
    · have ht : t.countP p ≤ 1 := by
        simpa [List.countP_cons, ha] using h
      simpa [List.eraseP_cons, List.countP_cons, ha] using ih ht

/-- Erasing an element that occurs at most once removes it entirely. -/
theorem not_mem_erase_of_count_le_one (a : Nat) (l : List Nat)
    (h : l.count a ≤ 1) : a ∉ l.erase a := by
  have hc : (l.erase a).count a = l.count a - 1 := List.count_erase_self a l
  have hz : (l.erase a).count a = 0 := by omega
  intro hmem
  have := List.count_pos_iff.mpr hmem
  omega

/-- C2 counterexample: from a view holding two records for the same
identifier (reached by two addSatellite calls), removeSatellite succeeds
yet a record for that identifier is still in the registry — refuting the
claim that on success the registry contains no record for the identifier. -/
theorem removeSatellite_duplicate_cex :
    (twoMarkerMap.removeSatellite iss).2 = none ∧
    (twoMarkerMap.removeSatellite iss).1.markers.countP (matchesId iss.id) = 1 ∧
    (1 : Nat) ≠ 0 := by
  refine ⟨by decide, by decide, by decide⟩

/-- C2 (amended): removeSatellite on an absent identifier fails with
NotFound (never silently ignored); on success it deletes the first
registry record matching the identifier and detaches that record's marker
from the widget's layers.  When the identifier had at most one record —
the normal case — no record for it remains, and when its marker was a
single layer, the widget no longer holds that visual. -/
theorem removeSatellite_spec (satellite : Satellite) (st : Leaflet) :
    (st.markers.find? (matchesId satellite.id) = none →
      st.removeSatellite satellite = (st, some JsError.notFound)) ∧
    (∀ r, st.markers.find? (matchesId satellite.id) = some r →
      st.removeSatellite satellite =
        ({ st with
            layers := st.layers.erase r.marker,
            markers := st.markers.eraseP (matchesId satellite.id) }, none) ∧
      (st.markers.countP (matchesId satellite.id) ≤ 1 →
        (st.removeSatellite satellite).1.markers.countP
          (matchesId satellite.id) = 0) ∧
      (st.layers.count r.marker ≤ 1 →
        r.marker ∉ (st.removeSatellite satellite).1.layers)) := by
  constructor
  · intro h
    simp [Leaflet.removeSatellite, h]
  · intro r hr
    have heq : st.removeSatellite satellite =
        ({ st with
            layers := st.layers.erase r.marker,
            markers := st.markers.eraseP (matchesId satellite.id) }, none) := by
      simp [Leaflet.removeSatellite, hr]
    refine ⟨heq, ?_, ?_⟩
    · intro hc
      rw [heq]
      exact countP_eraseP_of_le_one _ _ hc
    · intro hc
      rw [heq]
      exact not_mem_erase_of_count_le_one r.marker st.layers hc

/-- Witness for C2 (amended) at a view with a single record: the remove
succeeds, the registry is left with no record for the identifier, and the
widget no longer holds the marker. -/
theorem removeSatellite_spec_witness :
    oneMarkerMap.removeSatellite iss =
      ({ oneMarkerMap with
          layers := oneMarkerMap.layers.erase 0,
          markers := oneMarkerMap.markers.eraseP (matchesId iss.id) }, none) ∧
    (oneMarkerMap.removeSatellite iss).1.markers.countP (matchesId iss.id) = 0 ∧
    (0 : Nat) ∉ (oneMarkerMap.removeSatellite iss).1.layers := by
  have h := (removeSatellite_spec iss oneMarkerMap).2
    { id := 25544, marker := 0 } (by decide)
  exact ⟨h.1, h.2.1 (by decide), h.2.2 (by decide)⟩

/-! Claim C5: zoomToSatellite. -/

/-- C5: zoomToSatellite fails with NotFound when no registry record
matches the identifier; otherwise it re-centers the widget on the matching
marker's current coordinates and changes nothing else of the view state —
in particular the zoom level is exactly unchanged (the result is the input
state with only the center field replaced). -/
theorem zoomToSatellite_spec (satellite : Satellite) (st : Leaflet)
    (hwf : st.wf = true) :
    (st.markers.find? (matchesId satellite.id) = none →
      st.zoomToSatellite satellite = (st, some JsError.notFound)) ∧
    (∀ r, st.markers.find? (matchesId satellite.id) = some r →
      ∃ md, heapFind st.heap r.marker = some md ∧
        st.zoomToSatellite satellite =
          ({ st with center := (md.lat, md.lng) }, none)) := by
  constructor
  · intro h
    simp [Leaflet.zoomToSatellite, h]
  · intro r hr
    have hmem : r ∈ st.markers := List.mem_of_find?_eq_some hr
    have hall := List.all_eq_true.mp hwf r hmem
    have hsome : (heapFind st.heap r.marker).isSome := by
      have := (Bool.and_eq_true _ _).mp hall
      simpa using this.1
    obtain ⟨md, hmd⟩ := Option.isSome_iff_exists.mp hsome
    exact ⟨md, hmd, by simp [Leaflet.zoomToSatellite, hr, hmd]⟩

/-- Witness for C5: on the one-marker view the call re-centers on the
marker's coordinates (51, 0), keeping zoom and everything else unchanged. -/
theorem zoomToSatellite_spec_witness :
    oneMarkerMap.zoomToSatellite iss =
      ({ oneMarkerMap with center := ((51 : Int), (0 : Int)) }, none) := by
  obtain ⟨md, hmd, heq⟩ := (zoomToSatellite_spec iss oneMarkerMap (by decide)).2
    { id := 25544, marker := 0 } (by decide)
  have h2 : heapFind oneMarkerMap.heap (0 : Nat) =
      some { lat := 51, lng := 0, icon := Icon.satellite 0 } := by decide
  cases Option.some.inj (h2.symm.trans hmd)
  exact heq

/-! Claim C1: addSatellite and the one-record-per-identifier invariant. -/

/-- The registry after addSatellite: the old records followed by the new
one, regardless of whether a demotion happened (demotion only changes
marker icons, never the registry). -/
theorem addSatellite_markers (st : Leaflet) (s : Satellite) :
    (st.addSatellite s).markers =
      st.markers ++ [{ id := s.id, marker := st.nextHandle }] := by
  by_cases h : st.markers.any (matchesId s.id) <;>
    simp [Leaflet.addSatellite, Leaflet.replaceSatelliteWithDot, h]

/-- find? over a key-preserving map of an association list. -/
theorem find?_map_keyed (g : Nat × MarkerData → Nat × MarkerData)
    (hg : ∀ e, (g e).1 = e.1) (l : List (Nat × MarkerData)) (k : Nat) :
    (l.map g).find? (fun e => e.1 == k) =
      (l.find? (fun e => e.1 == k)).map g := by
  induction l with
  | nil => rfl
  | cons a t ih =>
    by_cases h : a.1 = k
    · rw [List.map_cons, List.find?_cons_of_pos _ (by simpa [hg] using h),
        List.find?_cons_of_pos _ (by simpa using h)]
      rfl
    · rw [List.map_cons, List.find?_cons_of_neg _ (by simpa [hg] using h),
        List.find?_cons_of_neg _ (by simpa using h), ih]

/-- Reading the heap through a cons cell. -/
theorem heapFind_cons (x : Nat × MarkerData) (l : List (Nat × MarkerData))
    (k : Nat) :
    heapFind (x :: l) k = if x.1 == k then some x.2 else heapFind l k := by
  by_cases h : x.1 = k
  · simp [heapFind, List.find?_cons_of_pos, h]
  · simp [heapFind, List.find?_cons_of_neg, h]

/-- replaceSatelliteWithDot seen through the heap: a marker whose handle
belongs to a matching record is demoted to the dot icon, every other
marker is untouched. -/
theorem heapFind_replaceSatelliteWithDot (st : Leaflet) (s : Satellite)
    (k : Nat) :
    heapFind (st.replaceSatelliteWithDot s).heap k =
      (heapFind st.heap k).map (fun md =>
        if ((st.markers.filter (matchesId s.id)).map
            MarkerRecord.marker).contains k
        then { md with icon := Icon.dot } else md) := by
  unfold Leaflet.replaceSatelliteWithDot heapFind
  simp only []
  rw [find?_map_keyed _ (fun e => by split <;> rfl)]
  cases hf : st.heap.find? (fun e => e.1 == k) with
  | none => rfl
  | some e =>
    have hk : e.1 = k := by simpa using List.find?_some hf
    simp only [Option.map_some']
    rw [hk]
    split <;> rfl

/-- C1 counterexample: two addSatellite calls with the same identifier
leave two registry records for that identifier, not exactly one. -/
theorem addSatellite_duplicate_cex :
    twoMarkerMap.markers.countP (matchesId iss.id) = 2 ∧ (2 : Nat) ≠ 1 := by
  exact ⟨by decide, by decide⟩

/-- C1 (amended): a sequence of n addSatellite calls with the same
identifier on a fresh view leaves n registry records for that identifier —
one per call, not exactly one.  Each call appends one new record whose
marker carries the satellite icon, and a call that finds the identifier
already present first demotes every existing matching record's marker to
the dot form, so after any call beyond the first all but the most recent
record are in the dot form. -/
theorem addSatellite_registry_spec (satellite : Satellite) :
    (∀ (lat lon zoom : Int) (n : Nat),
      ((fun st : Leaflet => st.addSatellite satellite)^[n]
          (Leaflet.new lat lon zoom)).markers.countP
        (matchesId satellite.id) = n) ∧
    (∀ st : Leaflet, st.wf = true →
      ((st.addSatellite satellite).markers =
        st.markers ++ [{ id := satellite.id, marker := st.nextHandle }]) ∧
      (∀ r ∈ st.markers, matchesId satellite.id r = true →
        ∃ md, heapFind (st.addSatellite satellite).heap r.marker = some md ∧
          md.icon = Icon.dot) ∧
      (heapFind (st.addSatellite satellite).heap st.nextHandle =
        some { lat := satellite.latitude, lng := satellite.longitude,
               icon := Icon.satellite st.satelliteIndex })) := by
  have hstep : ∀ st : Leaflet,
      (st.addSatellite satellite).markers.countP (matchesId satellite.id) =
        st.markers.countP (matchesId satellite.id) + 1 := by
    intro st
    rw [addSatellite_markers]
    simp [List.countP_append, List.countP_cons, matchesId]
  constructor
  · intro lat lon zoom n
    induction n with
    | zero => rfl
    | succ n ih => rw [Function.iterate_succ_apply', hstep, ih]
  · intro st hwf
    refine ⟨addSatellite_markers st satellite, ?_, ?_⟩
    · intro r hmem hpr
      have hany : st.markers.any (matchesId satellite.id) = true :=
        List.any_eq_true.mpr ⟨r, hmem, hpr⟩
      have hall := List.all_eq_true.mp hwf r hmem
      have hparts := (Bool.and_eq_true _ _).mp hall
      have hsome : (heapFind st.heap r.marker).isSome := by simpa using hparts.1
      have hlt : r.marker < st.nextHandle := by simpa using hparts.2
      obtain ⟨md0, hmd0⟩ := Option.isSome_iff_exists.mp hsome
      have hheap : (st.addSatellite satellite).heap =
          (st.nextHandle,
            { lat := satellite.latitude, lng := satellite.longitude,
              icon := Icon.satellite st.satelliteIndex }) ::
          (st.replaceSatelliteWithDot satellite).heap := by
        simp [Leaflet.addSatellite, hany, Leaflet.replaceSatelliteWithDot]
      have hin : ((st.markers.filter (matchesId satellite.id)).map
          MarkerRecord.marker).contains r.marker = true := by
        simpa using List.mem_map.mpr ⟨r, List.mem_filter.mpr ⟨hmem, hpr⟩, rfl⟩
      refine ⟨{ md0 with icon := Icon.dot }, ?_, rfl⟩
      rw [hheap, heapFind_cons]
      have hne : (st.nextHandle == r.marker) = false := by
        simp only [beq_eq_false_iff_ne, ne_eq]
        omega
      rw [hne]
      simp only [Bool.false_eq_true, if_false]
      rw [heapFind_replaceSatelliteWithDot, hmd0]
      simp only [Option.map_some']
      rw [hin]
      simp
    · by_cases hany : st.markers.any (matchesId satellite.id)
      · have hh : (st.addSatellite satellite).heap =
            (st.nextHandle,
              { lat := satellite.latitude, lng := satellite.longitude,
                icon := Icon.satellite st.satelliteIndex }) ::
            (st.replaceSatelliteWithDot satellite).heap := by
          simp [Leaflet.addSatellite, hany, Leaflet.replaceSatelliteWithDot]
        rw [hh, heapFind_cons]
        simp
      · have hh : (st.addSatellite satellite).heap =
            (st.nextHandle,
              { lat := satellite.latitude, lng := satellite.longitude,
                icon := Icon.satellite st.satelliteIndex }) :: st.heap := by
          simp [Leaflet.addSatellite, hany]
        rw [hh, heapFind_cons]
        simp

/-- Witness for C1 (amended): two calls on the fresh view leave two
records; on the one-record view a further call appends a second record,
demotes the first marker to the dot, and gives the new marker the
satellite icon. -/
theorem addSatellite_registry_spec_witness :
    (((fun st : Leaflet => st.addSatellite iss)^[2]
        (Leaflet.new 20 114 3)).markers.countP (matchesId iss.id) = 2) ∧
    ((oneMarkerMap.addSatellite iss).markers =
      oneMarkerMap.markers ++ [{ id := iss.id, marker := oneMarkerMap.nextHandle }]) ∧
    (∃ md, heapFind (oneMarkerMap.addSatellite iss).heap 0 = some md ∧
      md.icon = Icon.dot) ∧
    (heapFind (oneMarkerMap.addSatellite iss).heap oneMarkerMap.nextHandle =
      some { lat := iss.latitude, lng := iss.longitude,
             icon := Icon.satellite oneMarkerMap.satelliteIndex }) := by
  have h := (addSatellite_registry_spec iss).2 oneMarkerMap (by decide)
  exact ⟨(addSatellite_registry_spec iss).1 20 114 3 2, h.1,
    h.2.1 { id := 25544, marker := 0 } (by decide) (by decide), h.2.2⟩

/-! Claims C7 and C8: the auto-update timer. -/

/-- clearInterval preserves the fresh-id counter. -/
theorem clearInterval_next (handle : Option Nat) (w : TimerWorld) :
    (clearInterval handle w).next = w.next := by
  cases handle <;> rfl

/-- Under the loop invariant, clearing the recorded handle leaves no
active interval at all. -/
theorem clearInterval_active_nil (s : Satellite) (w : TimerWorld)
    (h1 : w.active.length ≤ 1) (h2 : ∀ h ∈ w.active, s.autoUpdater = some h) :
    (clearInterval s.autoUpdater w).active = [] := by
  cases hs : s.autoUpdater with
  | none =>
    cases hw : w.active with
    | nil => simp [clearInterval, hs, hw]
    | cons a t =>
      have := h2 a (by rw [hw]; exact List.mem_cons_self a t)
      rw [hs] at this
      exact absurd this (by simp)
  | some x =>
    cases hw : w.active with
    | nil => simp [clearInterval, hs, hw]
    | cons a t =>
      have ht : t = [] := by
        rw [hw] at h1
        cases t with
        | nil => rfl
        | cons b u => simp at h1
      have hax : x = a := by
        have := h2 a (by rw [hw]; exact List.mem_cons_self a t)
        rw [hs] at this
        exact Option.some.inj this
      subst ht
      subst hax
      simp [clearInterval, hs, hw]

/-- A loop whose timer world has no active interval is Stopped. -/
theorem loopStopped_of_active_nil (s : Satellite) (w : TimerWorld)
    (h : w.active = []) : loopStopped s w = true := by
  cases hs : s.autoUpdater <;> simp [loopStopped, hs, h]

/-- Clearing the recorded handle of a Stopped loop changes nothing. -/
theorem clearInterval_of_loopStopped (s : Satellite) (w : TimerWorld)
    (h : loopStopped s w = true) : clearInterval s.autoUpdater w = w := by
  cases hs : s.autoUpdater with
  | none => rfl
  | some x =>
    have hx : x ∉ w.active := by
      rw [loopStopped, hs] at h
      simpa using h
    simp [clearInterval, List.erase_of_not_mem hx]

/-- Every autoUpdate call preserves the loop invariant. -/
theorem loopInv_step (p : Satellite × TimerWorld)
    (inp : Bool × Int × Option Leaflet) (h : LoopInv p) :
    LoopInv (loopStep p inp) := by
  obtain ⟨h1, h2⟩ := h
  have hnil := clearInterval_active_nil p.1 p.2 h1 h2
  unfold loopStep Satellite.autoUpdate
  by_cases hi : inp.2.1 < 1000
  · simpa [hi] using ⟨h1, h2⟩
  · by_cases hm : inp.2.2.isNone
    · simpa [hi, hm] using ⟨h1, h2⟩
    · cases hb : inp.1 with
      | false =>
        refine ⟨?_, ?_⟩ <;> simp [hi, hm, hb, hnil]
      | true =>
        simp only [hi, hm, hb, if_false, Bool.not_true, Bool.false_eq_true,
          setInterval]
        constructor
        · simp [hnil]
        · intro x hx
          rw [hnil] at hx
          simp only [List.nil_append, List.mem_singleton] at hx
          subst hx
          rfl

/-- The loop invariant holds in every state the auto-update loop can
reach from a fresh satellite and an empty interval table. -/
theorem runLoop_loopInv (id : Int)
    (inputs : List (Bool × Int × Option Leaflet)) :
    LoopInv (runLoop id inputs) := by
  unfold runLoop
  have hgen : ∀ p, LoopInv p → LoopInv (inputs.foldl loopStep p) := by
    induction inputs with
    | nil => exact fun p hp => hp
    | cons a t ih => exact fun p hp => ih _ (loopInv_step p a hp)
  refine hgen _ ⟨by simp [TimerWorld.init], ?_⟩
  intro h hm
  simp [TimerWorld.init] at hm

/-- C7: across every sequence of autoUpdate calls from a fresh loop, at
most one interval is ever active — each successful start clears the
previously recorded timer before scheduling the new one — and any active
interval is exactly the one recorded in the satellite's autoUpdater. -/
theorem autoUpdate_single_tick_stream (id : Int)
    (inputs : List (Bool × Int × Option Leaflet)) :
    (runLoop id inputs).2.active.length ≤ 1 ∧
    ((runLoop id inputs).2.active.all
      (fun h => decide ((runLoop id inputs).1.autoUpdater = some h))) = true := by
  obtain ⟨h1, h2⟩ := runLoop_loopInv id inputs
  exact ⟨h1, List.all_eq_true.mpr fun x hx => decide_eq_true (h2 x hx)⟩

/-- C8: in any reachable loop state, a stop request with valid arguments
succeeds, leaves the satellite unchanged, merely clears the recorded
interval, and leaves the loop Stopped; stopping an already Stopped loop
is a no-op that leaves all state unchanged. -/
theorem autoUpdate_stop_spec (id : Int)
    (inputs : List (Bool × Int × Option Leaflet)) (i : Int) (mp : Leaflet)
    (hi : 1000 ≤ i) :
    ((runLoop id inputs).1.autoUpdate false i (some mp)
        (runLoop id inputs).2).2 = none ∧
    ((runLoop id inputs).1.autoUpdate false i (some mp)
        (runLoop id inputs).2).1.1 = (runLoop id inputs).1 ∧
    ((runLoop id inputs).1.autoUpdate false i (some mp)
        (runLoop id inputs).2).1.2 =
      clearInterval (runLoop id inputs).1.autoUpdater (runLoop id inputs).2 ∧
    loopStopped
      ((runLoop id inputs).1.autoUpdate false i (some mp)
          (runLoop id inputs).2).1.1
      ((runLoop id inputs).1.autoUpdate false i (some mp)
          (runLoop id inputs).2).1.2 = true ∧
    (loopStopped (runLoop id inputs).1 (runLoop id inputs).2 = true →
      ((runLoop id inputs).1.autoUpdate false i (some mp)
          (runLoop id inputs).2).1 =
        ((runLoop id inputs).1, (runLoop id inputs).2)) := by
  obtain ⟨h1, h2⟩ := runLoop_loopInv id inputs
  have hi' : ¬ i < 1000 := not_lt.mpr hi
  have hred : (runLoop id inputs).1.autoUpdate false i (some mp)
      (runLoop id inputs).2 =
      (((runLoop id inputs).1,
        clearInterval (runLoop id inputs).1.autoUpdater
          (runLoop id inputs).2), none) := by
    simp [Satellite.autoUpdate, hi']
  refine ⟨by rw [hred], by rw [hred], by rw [hred], ?_, ?_⟩
  · rw [hred]
    exact loopStopped_of_active_nil _ _
      (clearInterval_active_nil (runLoop id inputs).1 (runLoop id inputs).2 h1 h2)
  · intro hstopped
    rw [hred]
    simp [clearInterval_of_loopStopped _ _ hstopped]

/-- Witness for C8: after one successful start, a stop request at 1000 ms
succeeds, clears the timer, leaves the loop Stopped, and a second stop is
a no-op. -/
theorem autoUpdate_stop_spec_witness :
    ((runLoop 25544 loopInputs1).1.autoUpdate false 1000 (some demoMap)
        (runLoop 25544 loopInputs1).2).2 = none ∧
    ((runLoop 25544 loopInputs1).1.autoUpdate false 1000 (some demoMap)
        (runLoop 25544 loopInputs1).2).1.1 = (runLoop 25544 loopInputs1).1 ∧
    ((runLoop 25544 loopInputs1).1.autoUpdate false 1000 (some demoMap)
        (runLoop 25544 loopInputs1).2).1.2 =
      clearInterval (runLoop 25544 loopInputs1).1.autoUpdater
        (runLoop 25544 loopInputs1).2 ∧
    loopStopped
      ((runLoop 25544 loopInputs1).1.autoUpdate false 1000 (some demoMap)
          (runLoop 25544 loopInputs1).2).1.1
      ((runLoop 25544 loopInputs1).1.autoUpdate false 1000 (some demoMap)
          (runLoop 25544 loopInputs1).2).1.2 = true ∧
    (loopStopped (runLoop 25544 loopInputs1).1 (runLoop 25544 loopInputs1).2 = true →
      ((runLoop 25544 loopInputs1).1.autoUpdate false 1000 (some demoMap)
          (runLoop 25544 loopInputs1).2).1 =
        ((runLoop 25544 loopInputs1).1, (runLoop 25544 loopInputs1).2)) :=
  autoUpdate_stop_spec 25544 loopInputs1 1000 demoMap (by decide)

end SatTrack
